import Mathlib

/-!
Verification development for the blob-log format and sequential reader
(`utilities/blob_db/blob_log_reader.cc` and `utilities/blob_db/blob_log_format.h`).

The reader is embedded as explicit state passing over an abstract sequential
file interface `FileOps`.  Byte strings are `List Nat`.  Machine integers are
`Nat`; fixed-width encoding takes values modulo nothing (encoders are applied
to in-range values, recorded by explicit bound hypotheses where it matters).

The bodies of `BlobLogRecord::DecodeHeaderFrom`, `BlobLogRecord::clear`, the
buffer-resize helpers, `BlobLogHeader::EncodeTo/DecodeFrom`,
`BlobLogFooter::EncodeTo/DecodeFrom` and the value of the `kMagicNumber`
constant live in `blob_log_format.cc`, which is not part of the sources at
hand; those definitions are modelled from the spec and marked as such.
The 32-bit checksum function is opaque in the spec, so it is a parameter
`cksum : List Nat → Nat` throughout.
-/

namespace BlobDB

/-- Status results, shallowly embedding `rocksdb::Status` with the error
taxonomy the spec distinguishes (§7).  `endOfLog` and
`payloadChecksumMismatch` are part of the spec taxonomy; whether the code
ever produces them is settled by theorems below. -/
inductive Status where
  | ok
  | malformedHeader
  | malformedFooter
  | headerChecksumMismatch
  | payloadChecksumMismatch
  | unknownRecordType
  | unknownSubtype
  | endOfLog
  | ioError (code : Nat)
deriving DecidableEq, Repr

/-- Little-endian fixed-width encoding of a natural number into `w` bytes. -/
def encFixed : Nat → Nat → List Nat
  | 0, _ => []
  | w + 1, n => n % 256 :: encFixed w (n / 256)

/-- Little-endian fixed-width decoding of the first `w` bytes of a list
(missing bytes read as 0; the codec contract, §4.1, requires callers to
supply at least `w` bytes). -/
def decFixed : Nat → List Nat → Nat
  | 0, _ => 0
  | _ + 1, [] => 0
  | w + 1, b :: t => b + 256 * decFixed w t

/-- `DecodeFixed64` of `util/coding.h` on the byte-list model. -/
def DecodeFixed64 (l : List Nat) : Nat := decFixed 8 l

/-- The codec precondition of §4.1: fixed-width decoding must only be applied
to inputs holding at least the required width. -/
abbrev decodePre (w : Nat) (l : List Nat) : Prop := w ≤ l.length

/-- Abstract sequential-file interface consumed by the Reader:
`read n` returns a status, the bytes read and the new stream state;
`skip n` returns a status and the new stream state. -/
structure FileOps (σ : Type) where
  read : Nat → σ → Status × List Nat × σ
  skip : Nat → σ → Status × σ

/-- Byte-list instantiation with POSIX-like semantics (as in
`PosixSequentialFile`): a read returns OK with up to `n` bytes, short or
empty at end of file; skip always succeeds. -/
def posixFile : FileOps (List Nat) where
  read n s := (Status.ok, s.take n, s.drop n)
  skip n s := (Status.ok, s.drop n)

/-- One prescribed response of a fault-injecting stream: the status and (for
reads) the bytes the stream hands back. -/
structure OpResp where
  st : Status
  bytes : List Nat
deriving DecidableEq, Repr

/-- Fault-injecting instantiation: the stream state is the list of prescribed
responses, consumed one per operation. -/
def oracleFile : FileOps (List OpResp) where
  read _ s :=
    match s with
    | [] => (Status.ok, [], [])
    | r :: t => (r.st, r.bytes, t)
  skip _ s :=
    match s with
    | [] => (Status.ok, [])
    | r :: t => (r.st, t)

/-- `BlobLogRecord` scalar fields, materialized spans and buffer capacities
(`kbs_`/`bbs_` model the monotonically growing scratch capacities). -/
structure BlobLogRecord where
  checksum_ : Nat := 0
  header_cksum_ : Nat := 0
  key_size_ : Nat := 0
  blob_size_ : Nat := 0
  time_val_ : Nat := 0
  ttl_val_ : Nat := 0
  sn_ : Nat := 0
  type_ : Nat := 0
  subtype_ : Nat := 0
  key_ : List Nat := []
  blob_ : List Nat := []
  kbs_ : Nat := 0
  bbs_ : Nat := 0
deriving DecidableEq, Repr

/-- Record header size: checksum(4) + header checksum(4) + key length(4) +
blob length(8) + ttl(4) + time(8) + type(1) + subtype(1) = 34. -/
def BlobLogRecord.kHeaderSize : Nat := 4 + 4 + 4 + 8 + 4 + 8 + 1 + 1

/-- Record footer size: sequence number (8). -/
def BlobLogRecord.kFooterSize : Nat := 8

/-- Modelled from the spec: the body of `BlobLogRecord::clear` is in
`blob_log_format.cc`, not under the sources at hand.  Per §4.4 it resets all
scalar fields to zero and truncates (without deallocating) the key/blob
spans, so the buffer capacities survive. -/
def BlobLogRecord.clear (r : BlobLogRecord) : BlobLogRecord :=
  { checksum_ := 0, header_cksum_ := 0, key_size_ := 0, blob_size_ := 0,
    time_val_ := 0, ttl_val_ := 0, sn_ := 0, type_ := 0, subtype_ := 0,
    key_ := [], blob_ := [], kbs_ := r.kbs_, bbs_ := r.bbs_ }

/-- Modelled from the spec: `resizeKeyBuffer` (`EnsureKeyCapacity`, §4.4)
grows the owned key scratch capacity to at least `n`, otherwise no-op. -/
def BlobLogRecord.resizeKeyBuffer (r : BlobLogRecord) (n : Nat) : BlobLogRecord :=
  { r with kbs_ := max r.kbs_ n }

/-- Modelled from the spec: `resizeBlobBuffer` (`EnsureBlobCapacity`, §4.4)
grows the owned blob scratch capacity to at least `n`, otherwise no-op. -/
def BlobLogRecord.resizeBlobBuffer (r : BlobLogRecord) (n : Nat) : BlobLogRecord :=
  { r with bbs_ := max r.bbs_ n }

/-- Modelled from the spec: the body of `BlobLogRecord::DecodeHeaderFrom` is
in `blob_log_format.cc`, not under the sources at hand.  Per §4.4 it reads
the fixed 34-byte record header, recomputes the checksum over the 26 bytes
following `header_checksum` and compares it against the stored value before
any size field is trusted, then validates the type/subtype tags, and only on
success populates the scalar fields.  `cksum` is the opaque 32-bit checksum
function. -/
def BlobLogRecord.DecodeHeaderFrom (cksum : List Nat → Nat) (input : List Nat)
    (r : BlobLogRecord) : Status × BlobLogRecord :=
  if input.length < BlobLogRecord.kHeaderSize then (Status.malformedHeader, r)
  else if cksum ((input.take BlobLogRecord.kHeaderSize).drop 8) ≠ decFixed 4 (input.drop 4) then
    (Status.headerChecksumMismatch, r)
  else if 3 < (input.drop 32).headD 0 then (Status.unknownRecordType, r)
  else if 2 < (input.drop 33).headD 0 then (Status.unknownSubtype, r)
  else
    (Status.ok,
      { r with
        checksum_ := decFixed 4 input,
        header_cksum_ := decFixed 4 (input.drop 4),
        key_size_ := decFixed 4 (input.drop 8),
        blob_size_ := decFixed 8 (input.drop 12),
        ttl_val_ := decFixed 4 (input.drop 20),
        time_val_ := decFixed 8 (input.drop 24),
        type_ := (input.drop 32).headD 0,
        subtype_ := (input.drop 33).headD 0 })

/-- Modelled from the spec: the value of the `extern const uint32_t
kMagicNumber` is defined in `blob_log_format.cc`, not under the sources at
hand; any fixed 32-bit constant is faithful. -/
def kMagicNumber : Nat := 2395959

/-- Modelled from the spec (§3): the footer carries a magic constant
distinct from the header's. -/
def kMagicNumberFooter : Nat := 2395960

/-- `BlobLogHeader`: magic number plus optional TTL and timestamp guess
ranges. -/
structure BlobLogHeader where
  magic_number_ : Nat := 0
  ttl_guess_ : Option (Nat × Nat) := none
  ts_guess_ : Option (Nat × Nat) := none
deriving DecidableEq, Repr

/-- File header size: magic(4) + flags(4) + ttl guess(4+4) + ts guess(8+8) = 32. -/
def BlobLogHeader.kHeaderSize : Nat := 4 + 4 + 4 * 2 + 8 * 2

/-- Modelled from the spec: the body of `BlobLogHeader::EncodeTo` is in
`blob_log_format.cc`, not under the sources at hand.  Per §4.2 it writes the
magic number, a flags word recording presence of the TTL and timestamp
ranges, then the two ranges, zero-filled when absent; exactly 32 bytes. -/
def BlobLogHeader.EncodeTo (h : BlobLogHeader) : List Nat :=
  let fl := (if h.ttl_guess_.isSome then 1 else 0) + (if h.ts_guess_.isSome then 2 else 0)
  let ttl := h.ttl_guess_.getD (0, 0)
  let ts := h.ts_guess_.getD (0, 0)
  encFixed 4 kMagicNumber ++ encFixed 4 fl ++
    encFixed 4 ttl.1 ++ encFixed 4 ttl.2 ++ encFixed 8 ts.1 ++ encFixed 8 ts.2

/-- Modelled from the spec: the body of `BlobLogHeader::DecodeFrom` is in
`blob_log_format.cc`, not under the sources at hand.  Per §4.2 it fails with
a malformed-header error when fewer than 32 bytes are available or the magic
number mismatches, and otherwise populates the optional ranges according to
the flags. -/
def BlobLogHeader.DecodeFrom (input : List Nat) : Status × BlobLogHeader :=
  if input.length < BlobLogHeader.kHeaderSize then (Status.malformedHeader, {})
  else if decFixed 4 input ≠ kMagicNumber then (Status.malformedHeader, {})
  else
    let fl := decFixed 4 (input.drop 4)
    (Status.ok,
      { magic_number_ := kMagicNumber,
        ttl_guess_ :=
          if fl % 2 = 1 then some (decFixed 4 (input.drop 8), decFixed 4 (input.drop 12))
          else none,
        ts_guess_ :=
          if fl / 2 % 2 = 1 then some (decFixed 8 (input.drop 16), decFixed 8 (input.drop 24))
          else none })

/-- `BlobLogFooter`: magic number, record count, optional TTL/timestamp
ranges and the always-present sequence-number range. -/
structure BlobLogFooter where
  magic_number_ : Nat := 0
  blob_count_ : Nat := 0
  ttl_range_ : Option (Nat × Nat) := none
  ts_range_ : Option (Nat × Nat) := none
  sn_range_ : Nat × Nat := (0, 0)
deriving DecidableEq, Repr

/-- File footer size: magic(4) + flags(4) + count(8) + ttl(4+4) + sn(8+8) +
ts(8+8) = 56. -/
def BlobLogFooter.kFooterSize : Nat := 4 + 4 + 8 + (4 * 2) + (8 * 2) + (8 * 2)

/-- Modelled from the spec: the body of `BlobLogFooter::EncodeTo` is in
`blob_log_format.cc`, not under the sources at hand.  Per §4.3/§6 it writes
magic, flags, blob count, TTL range (zero-filled if absent), sequence-number
range and timestamp range (zero-filled if absent); exactly 56 bytes. -/
def BlobLogFooter.EncodeTo (f : BlobLogFooter) : List Nat :=
  let fl := (if f.ttl_range_.isSome then 1 else 0) + (if f.ts_range_.isSome then 2 else 0)
  let ttl := f.ttl_range_.getD (0, 0)
  let ts := f.ts_range_.getD (0, 0)
  encFixed 4 kMagicNumberFooter ++ encFixed 4 fl ++ encFixed 8 f.blob_count_ ++
    encFixed 4 ttl.1 ++ encFixed 4 ttl.2 ++
    encFixed 8 f.sn_range_.1 ++ encFixed 8 f.sn_range_.2 ++
    encFixed 8 ts.1 ++ encFixed 8 ts.2

/-- Modelled from the spec: the body of `BlobLogFooter::DecodeFrom` is in
`blob_log_format.cc`, not under the sources at hand.  Per §4.3 it fails with
a malformed-footer error on insufficient length or magic mismatch, and
otherwise populates count and ranges (optional ranges per the flags). -/
def BlobLogFooter.DecodeFrom (input : List Nat) : Status × BlobLogFooter :=
  if input.length < BlobLogFooter.kFooterSize then (Status.malformedFooter, {})
  else if decFixed 4 input ≠ kMagicNumberFooter then (Status.malformedFooter, {})
  else
    let fl := decFixed 4 (input.drop 4)
    (Status.ok,
      { magic_number_ := kMagicNumberFooter,
        blob_count_ := decFixed 8 (input.drop 8),
        ttl_range_ :=
          if fl % 2 = 1 then some (decFixed 4 (input.drop 16), decFixed 4 (input.drop 20))
          else none,
        ts_range_ :=
          if fl / 2 % 2 = 1 then some (decFixed 8 (input.drop 40), decFixed 8 (input.drop 48))
          else none,
        sn_range_ := (decFixed 8 (input.drop 24), decFixed 8 (input.drop 32)) })

/-- Read depth selector, `READ_LEVEL` of `blob_log_reader.h`. -/
inductive READ_LEVEL where
  | kReadLevelHdrFooter
  | kReadLevelHdrFooterKey
  | kReadLevelHdrFooterKeyBlob
deriving DecidableEq, Repr

/-- Recovery-policy parameter threaded through `ReadRecord`
(`rocksdb::WALRecoveryMode`). -/
inductive WALRecoveryMode where
  | kTolerateCorruptedTailRecords
  | kAbsoluteConsistency
  | kPointInTimeRecovery
  | kSkipAnyCorruptedRecords
deriving DecidableEq, Repr

/-- Reader state: the stream, the reusable scratch slice `buffer_` and the
`next_byte_` offset.  A fresh Reader has `next_byte_ = 0`. -/
structure ReaderState (σ : Type) where
  file : σ
  buffer_ : List Nat := []
  next_byte_ : Nat := 0
deriving DecidableEq, Repr

/-- `Reader::ReadHeader` of `blob_log_reader.cc`: read
`BlobLogHeader::kHeaderSize` bytes into the scratch buffer, propagate a read
failure, otherwise decode.  `next_byte_` is not touched. -/
def Reader.ReadHeader {σ : Type} (fo : FileOps σ) (header : BlobLogHeader)
    (rs : ReaderState σ) : Status × BlobLogHeader × ReaderState σ :=
  let hr := fo.read BlobLogHeader.kHeaderSize rs.file
  let rs1 : ReaderState σ := { rs with buffer_ := hr.2.1, file := hr.2.2 }
  if hr.1 ≠ Status.ok then (hr.1, header, rs1)
  else
    let dr := BlobLogHeader.DecodeFrom rs1.buffer_
    (dr.1, dr.2, rs1)

/-- `Reader::ReadRecord` of `blob_log_reader.cc`, translated statement by
statement: clear the record and buffer, read the 34-byte record header
(advancing `next_byte_` regardless of the read status), early-return on read
or decode failure, then branch on the level.  As in the source, the `Skip`
status is dropped and each successive `Read` assigns the same `status`
variable, so the returned status is that of the final footer read; the
sequence number is decoded from the scratch buffer before that status is
returned.  The `wal_recovery_mode` parameter is accepted as in the source
signature. -/
def Reader.ReadRecord {σ : Type} (cksum : List Nat → Nat) (fo : FileOps σ)
    (record : BlobLogRecord) (level : READ_LEVEL)
    (wal_recovery_mode : WALRecoveryMode) (rs : ReaderState σ) :
    Status × BlobLogRecord × ReaderState σ :=
  let record0 := record.clear
  let rs0 : ReaderState σ := { rs with buffer_ := [] }
  let hr := fo.read BlobLogRecord.kHeaderSize rs0.file
  let rs1 : ReaderState σ :=
    { rs0 with buffer_ := hr.2.1, file := hr.2.2,
               next_byte_ := rs0.next_byte_ + BlobLogRecord.kHeaderSize }
  if hr.1 ≠ Status.ok then (hr.1, record0, rs1)
  else
    let dr := BlobLogRecord.DecodeHeaderFrom cksum rs1.buffer_ record0
    if dr.1 ≠ Status.ok then (dr.1, dr.2, rs1)
    else
      let rec1 := dr.2
      let kb_size := rec1.key_size_ + rec1.blob_size_
      match level with
      | READ_LEVEL.kReadLevelHdrFooter =>
        let sk := fo.skip kb_size rs1.file
        let fr := fo.read BlobLogRecord.kFooterSize sk.2
        let rec2 := { rec1 with sn_ := DecodeFixed64 fr.2.1 }
        let rs2 : ReaderState σ :=
          { rs1 with buffer_ := fr.2.1, file := fr.2.2,
                     next_byte_ := rs1.next_byte_ + kb_size + BlobLogRecord.kFooterSize }
        (fr.1, rec2, rs2)
      | READ_LEVEL.kReadLevelHdrFooterKey =>
        let rec2 := rec1.resizeKeyBuffer rec1.key_size_
        let kr := fo.read rec2.key_size_ rs1.file
        let rec3 := { rec2 with key_ := kr.2.1 }
        let sk := fo.skip rec3.blob_size_ kr.2.2
        let fr := fo.read BlobLogRecord.kFooterSize sk.2
        let rec4 := { rec3 with sn_ := DecodeFixed64 fr.2.1 }
        let rs2 : ReaderState σ :=
          { rs1 with buffer_ := fr.2.1, file := fr.2.2,
                     next_byte_ := rs1.next_byte_ + kb_size + BlobLogRecord.kFooterSize }
        (fr.1, rec4, rs2)
      | READ_LEVEL.kReadLevelHdrFooterKeyBlob =>
        let rec2 := rec1.resizeKeyBuffer rec1.key_size_
        let kr := fo.read rec2.key_size_ rs1.file
        let rec3 := { rec2 with key_ := kr.2.1 }
        let rec4 := rec3.resizeBlobBuffer rec3.blob_size_
        let br := fo.read rec4.blob_size_ kr.2.2
        let rec5 := { rec4 with blob_ := br.2.1 }
        let fr := fo.read BlobLogRecord.kFooterSize br.2.2
        let rec6 := { rec5 with sn_ := DecodeFixed64 fr.2.1 }
        let rs2 : ReaderState σ :=
          { rs1 with buffer_ := fr.2.1, file := fr.2.2,
                     next_byte_ := rs1.next_byte_ + kb_size + BlobLogRecord.kFooterSize }
        (fr.1, rec6, rs2)

/-- Drive repeated `ReadRecord` calls on one Reader (one depth per call),
reusing the record object as callers of the source do; returns the list of
(status, record) results together with the final reader state. -/
def Reader.runReads {σ : Type} (cksum : List Nat → Nat) (fo : FileOps σ)
    (mode : WALRecoveryMode) :
    List READ_LEVEL → BlobLogRecord → ReaderState σ →
      List (Status × BlobLogRecord) × ReaderState σ
  | [], _, rs => ([], rs)
  | l :: ls, record, rs =>
    let r1 := Reader.ReadRecord cksum fo record l mode rs
    let rest := Reader.runReads cksum fo mode ls r1.2.1 r1.2.2
    ((r1.1, r1.2.1) :: rest.1, rest.2)

/-- The constant-zero stand-in used to instantiate the opaque checksum
parameter in concrete evaluations. -/
def czero : List Nat → Nat := fun _ => 0

/-- A concrete 34-byte record header with payload-checksum field `pc`, key
size `ks`, blob size `bs`, zero ttl/time and Full/Regular tags; its header
checksum field is 0, so it decodes successfully under `czero`. -/
def mkRecHeader (pc ks bs : Nat) : List Nat :=
  encFixed 4 pc ++ encFixed 4 0 ++ encFixed 4 ks ++ encFixed 8 bs ++
    encFixed 4 0 ++ encFixed 8 0 ++ [0, 0]

/-- Scalar-field agreement between two decoded records: sequence number and
the scalar header fields (key size, blob size, ttl, time, type, subtype). -/
abbrev scalarFieldsEq (a b : BlobLogRecord) : Prop :=
  a.sn_ = b.sn_ ∧ a.key_size_ = b.key_size_ ∧ a.blob_size_ = b.blob_size_ ∧
    a.ttl_val_ = b.ttl_val_ ∧ a.time_val_ = b.time_val_ ∧
    a.type_ = b.type_ ∧ a.subtype_ = b.subtype_

/-- A valid `BlobLogHeader` value: the magic number is the format constant
and the (zero when absent) range end points fit their encoded widths. -/
abbrev BlobLogHeader.WellFormed (h : BlobLogHeader) : Prop :=
  h.magic_number_ = kMagicNumber ∧
    (h.ttl_guess_.getD (0, 0)).1 < 256 ^ 4 ∧ (h.ttl_guess_.getD (0, 0)).2 < 256 ^ 4 ∧
    (h.ts_guess_.getD (0, 0)).1 < 256 ^ 8 ∧ (h.ts_guess_.getD (0, 0)).2 < 256 ^ 8

/-- A valid `BlobLogFooter` value: footer magic constant and all encoded
fields within their widths. -/
abbrev BlobLogFooter.WellFormed (f : BlobLogFooter) : Prop :=
  f.magic_number_ = kMagicNumberFooter ∧ f.blob_count_ < 256 ^ 8 ∧
    (f.ttl_range_.getD (0, 0)).1 < 256 ^ 4 ∧ (f.ttl_range_.getD (0, 0)).2 < 256 ^ 4 ∧
    (f.ts_range_.getD (0, 0)).1 < 256 ^ 8 ∧ (f.ts_range_.getD (0, 0)).2 < 256 ^ 8 ∧
    f.sn_range_.1 < 256 ^ 8 ∧ f.sn_range_.2 < 256 ^ 8

/-- A one-record byte stream whose record header stores payload checksum 5,
key `[7]`, blob `[9]` and footer bytes `[1..8]`; `czero ([7] ++ [9]) = 0`,
so the stored payload checksum does not match the payload. -/
def c1stream : List Nat :=
  mkRecHeader 5 1 1 ++ [7] ++ [9] ++ [1, 2, 3, 4, 5, 6, 7, 8]

/-- The record produced by decoding `c1stream`'s header from a cleared
record under `czero`. -/
def c6rec : BlobLogRecord := { checksum_ := 5, key_size_ := 1, blob_size_ := 1 }

/-- Fault oracle: a valid record header followed by a truncated tail where
the key, blob and footer reads all fail with an I/O error. -/
def c2stream : List OpResp :=
  [⟨Status.ok, mkRecHeader 0 1 1⟩, ⟨Status.ioError 3, []⟩, ⟨Status.ioError 3, []⟩,
   ⟨Status.ioError 3, []⟩]

/-- A two-record byte stream: (key 1, blob 1) then (key 2, blob 0). -/
def c4stream : List Nat :=
  mkRecHeader 0 1 1 ++ [7] ++ [9] ++ [1, 2, 3, 4, 5, 6, 7, 8] ++
    mkRecHeader 0 2 0 ++ [4, 5] ++ [8, 7, 6, 5, 4, 3, 2, 1]

/-- Fault oracle: valid record header (key size 1, blob size 0), then the
key read fails with an I/O error while the blob skip and the footer read
succeed. -/
def c5stream : List OpResp :=
  [⟨Status.ok, mkRecHeader 0 1 0⟩, ⟨Status.ioError 7, []⟩, ⟨Status.ok, []⟩,
   ⟨Status.ok, [1, 2, 3, 4, 5, 6, 7, 8]⟩]

/-- Fault oracle for the header+footer depth: valid record header, skip,
then a footer read that fails with an I/O error and hands back only 3
bytes. -/
def c9streamA : List OpResp :=
  [⟨Status.ok, mkRecHeader 0 1 1⟩, ⟨Status.ok, []⟩, ⟨Status.ioError 9, [1, 2, 3]⟩]

/-- Fault oracle for the header+footer+key depth with a failing short
footer read. -/
def c9streamB : List OpResp :=
  [⟨Status.ok, mkRecHeader 0 1 1⟩, ⟨Status.ok, [7]⟩, ⟨Status.ok, []⟩,
   ⟨Status.ioError 9, [1, 2, 3]⟩]

/-- Fault oracle for the full depth with a failing short footer read. -/
def c9streamC : List OpResp :=
  [⟨Status.ok, mkRecHeader 0 1 1⟩, ⟨Status.ok, [7]⟩, ⟨Status.ok, [9]⟩,
   ⟨Status.ioError 9, [1, 2, 3]⟩]

/-- A 34-byte record header whose stored header checksum field is 7 while
`czero` of the covered 26 bytes is 0: a header-checksum mismatch. -/
def badRecHeader : List Nat :=
  encFixed 4 0 ++ encFixed 4 7 ++ encFixed 4 1 ++ encFixed 8 1 ++
    encFixed 4 0 ++ encFixed 8 0 ++ [0, 0]

/-- A concrete well-formed header value with a TTL guess and no timestamp
guess. -/
def c7hdr : BlobLogHeader :=
  { magic_number_ := kMagicNumber, ttl_guess_ := some (1, 2), ts_guess_ := none }

/-- A concrete well-formed footer value with a timestamp range and no TTL
range. -/
def c7ftr : BlobLogFooter :=
  { magic_number_ := kMagicNumberFooter, blob_count_ := 3, ttl_range_ := none,
    ts_range_ := some (5, 6), sn_range_ := (10, 20) }

end BlobDB


namespace BlobDB

/-! Helper lemmas shared by several claims. -/

/-- The decoder of the record header only ever reports success, a short
input, a header-checksum mismatch or an unknown tag. -/
theorem DecodeHeaderFrom_status (cksum : List Nat → Nat) (input : List Nat)
    (r : BlobLogRecord) :
    (BlobLogRecord.DecodeHeaderFrom cksum input r).1 = Status.ok ∨
    (BlobLogRecord.DecodeHeaderFrom cksum input r).1 = Status.malformedHeader ∨
    (BlobLogRecord.DecodeHeaderFrom cksum input r).1 = Status.headerChecksumMismatch ∨
    (BlobLogRecord.DecodeHeaderFrom cksum input r).1 = Status.unknownRecordType ∨
    (BlobLogRecord.DecodeHeaderFrom cksum input r).1 = Status.unknownSubtype := by
  unfold BlobLogRecord.DecodeHeaderFrom
  repeat' split
  all_goals simp

/-- Over the POSIX-style byte-list stream, `ReadRecord` never produces a
payload-checksum-mismatch status nor an end-of-log status: its status is
either the final footer-read status (always OK here) or a header-decode
failure. -/
theorem readRecord_posix_taxonomy (cksum : List Nat → Nat) (record : BlobLogRecord)
    (level : READ_LEVEL) (mode : WALRecoveryMode) (rs : ReaderState (List Nat)) :
    (Reader.ReadRecord cksum posixFile record level mode rs).1 ≠ Status.payloadChecksumMismatch ∧
    (Reader.ReadRecord cksum posixFile record level mode rs).1 ≠ Status.endOfLog := by
  cases level <;>
    (simp only [Reader.ReadRecord, posixFile]
     split <;> rename_i h1
     · exact absurd rfl h1
     · split <;> rename_i h2
       · rcases DecodeHeaderFrom_status cksum _ record.clear with h | h | h | h | h <;>
           first
             | exact absurd h h2
             | (rw [h]; exact ⟨by simp, by simp⟩)
       · exact ⟨by simp, by simp⟩)

/-- A successful `ReadRecord` call advances `next_byte_` by exactly
`34 + key_size + blob_size + 8` for the record it returned. -/
theorem ReadRecord_ok_advance {σ : Type} (cksum : List Nat → Nat) (fo : FileOps σ)
    (record : BlobLogRecord) (level : READ_LEVEL) (mode : WALRecoveryMode)
    (rs : ReaderState σ)
    (h : (Reader.ReadRecord cksum fo record level mode rs).1 = Status.ok) :
    (Reader.ReadRecord cksum fo record level mode rs).2.2.next_byte_ =
      rs.next_byte_ +
        (34 + (Reader.ReadRecord cksum fo record level mode rs).2.1.key_size_ +
          (Reader.ReadRecord cksum fo record level mode rs).2.1.blob_size_ + 8) := by
  cases level <;>
    (simp only [Reader.ReadRecord, BlobLogRecord.resizeKeyBuffer,
       BlobLogRecord.resizeBlobBuffer, BlobLogRecord.kHeaderSize,
       BlobLogRecord.kFooterSize] at h ⊢
     split at h <;> rename_i h1
     · exact absurd h h1
     · rw [if_neg h1]
       split at h <;> rename_i h2
       · exact absurd h h2
       · rw [if_neg h2]
         dsimp only
         omega)

/-- Driving `runReads`, all-successful scans accumulate `next_byte_` by the
per-record `34 + key_size + blob_size + 8` amounts on top of the starting
offset. -/
theorem runReads_offset {σ : Type} (cksum : List Nat → Nat) (fo : FileOps σ)
    (mode : WALRecoveryMode) (levels : List READ_LEVEL) :
    ∀ (record : BlobLogRecord) (rs : ReaderState σ),
      (∀ p ∈ (Reader.runReads cksum fo mode levels record rs).1, p.1 = Status.ok) →
      (Reader.runReads cksum fo mode levels record rs).2.next_byte_ =
        rs.next_byte_ +
          ((Reader.runReads cksum fo mode levels record rs).1.map
            (fun p => 34 + p.2.key_size_ + p.2.blob_size_ + 8)).sum := by
  induction levels with
  | nil => intro record rs _; simp [Reader.runReads]
  | cons l ls ih =>
    intro record rs hok
    simp only [Reader.runReads] at hok ⊢
    have hhead : (Reader.ReadRecord cksum fo record l mode rs).1 = Status.ok :=
      hok _ (List.mem_cons_self _ _)
    have htail := fun p hp => hok p (List.mem_cons_of_mem _ hp)
    have hadv := ReadRecord_ok_advance cksum fo record l mode rs hhead
    have hrec := ih (Reader.ReadRecord cksum fo record l mode rs).2.1
      (Reader.ReadRecord cksum fo record l mode rs).2.2 htail
    simp only [List.map_cons, List.sum_cons, hrec, hadv]
    omega

/-! Claim theorems. -/

/-- Claim C1, counterexample: at `kReadLevelHdrFooterKeyBlob` both spans are
materialized (`key_ = [7]`, `blob_ = [9]`), the stored payload checksum is 5
while the checksum of the concatenated payload under the model checksum
`czero` is 0, and `ReadRecord` nonetheless returns OK instead of failing
with a payload-checksum mismatch. -/
theorem readRecord_ok_despite_payload_mismatch :
    (Reader.ReadRecord czero posixFile {} READ_LEVEL.kReadLevelHdrFooterKeyBlob
        WALRecoveryMode.kAbsoluteConsistency { file := c1stream }).1 = Status.ok ∧
    (Reader.ReadRecord czero posixFile {} READ_LEVEL.kReadLevelHdrFooterKeyBlob
        WALRecoveryMode.kAbsoluteConsistency { file := c1stream }).2.1.checksum_ = 5 ∧
    (Reader.ReadRecord czero posixFile {} READ_LEVEL.kReadLevelHdrFooterKeyBlob
        WALRecoveryMode.kAbsoluteConsistency { file := c1stream }).2.1.key_ = [7] ∧
    (Reader.ReadRecord czero posixFile {} READ_LEVEL.kReadLevelHdrFooterKeyBlob
        WALRecoveryMode.kAbsoluteConsistency { file := c1stream }).2.1.blob_ = [9] ∧
    czero ([7] ++ [9]) ≠ 5 := by decide

/-- Claim C1 (amended): `ReadRecord` performs no payload-checksum
verification at any depth; over the byte-list stream it never returns
`PayloadChecksumMismatch`, whatever the checksum function, record, depth,
policy or stream contents. -/
theorem readRecord_never_payload_mismatch (cksum : List Nat → Nat)
    (record : BlobLogRecord) (level : READ_LEVEL) (mode : WALRecoveryMode)
    (rs : ReaderState (List Nat)) :
    (Reader.ReadRecord cksum posixFile record level mode rs).1 ≠
      Status.payloadChecksumMismatch :=
  (readRecord_posix_taxonomy cksum record level mode rs).1

/-- Claim C2, counterexample: on a stream whose final record is truncated
(the key, blob and footer reads fail with an I/O error), `ReadRecord` under
the tolerant policy returns exactly the same result as under the strict
policy — the I/O error, not `EndOfLog`. -/
theorem readRecord_truncated_tail_policy_blind :
    Reader.ReadRecord czero oracleFile {} READ_LEVEL.kReadLevelHdrFooterKeyBlob
        WALRecoveryMode.kTolerateCorruptedTailRecords { file := c2stream } =
      Reader.ReadRecord czero oracleFile {} READ_LEVEL.kReadLevelHdrFooterKeyBlob
        WALRecoveryMode.kAbsoluteConsistency { file := c2stream } ∧
    (Reader.ReadRecord czero oracleFile {} READ_LEVEL.kReadLevelHdrFooterKeyBlob
        WALRecoveryMode.kTolerateCorruptedTailRecords { file := c2stream }).1 =
      Status.ioError 3 ∧
    Status.ioError 3 ≠ Status.endOfLog := by decide

/-- Claim C2 (amended): the recovery-policy parameter is ignored by
`ReadRecord`; a truncated or checksum-failing final record yields the same
status under the tolerant policy as under any other, and that status is
never the `EndOfLog` degradation the spec describes. -/
theorem readRecord_recovery_policy_ignored (cksum : List Nat → Nat)
    (record : BlobLogRecord) (level : READ_LEVEL) (m1 m2 : WALRecoveryMode)
    (rs : ReaderState (List Nat)) :
    Reader.ReadRecord cksum posixFile record level m1 rs =
      Reader.ReadRecord cksum posixFile record level m2 rs ∧
    (Reader.ReadRecord cksum posixFile record level m1 rs).1 ≠ Status.endOfLog :=
  ⟨rfl, (readRecord_posix_taxonomy cksum record level m1 rs).2⟩

/-- Claim C3: when the stored header checksum does not match the checksum
recomputed over the 26 header bytes following it, `DecodeHeaderFrom` fails
with `HeaderChecksumMismatch` leaving the record untouched, and `ReadRecord`
returns that failure immediately after the 34-byte header read: the stream
has seen no further read or skip, and no buffer was resized from the
decoded sizes — the sizes are used only after `DecodeHeaderFrom` succeeds. -/
theorem readRecord_checks_header_checksum_first {σ : Type} (cksum : List Nat → Nat)
    (fo : FileOps σ) (record : BlobLogRecord) (level : READ_LEVEL)
    (mode : WALRecoveryMode) (rs : ReaderState σ) (input : List Nat) (f1 : σ)
    (hlen : BlobLogRecord.kHeaderSize ≤ input.length)
    (hmm : cksum ((input.take BlobLogRecord.kHeaderSize).drop 8) ≠ decFixed 4 (input.drop 4))
    (hread : fo.read BlobLogRecord.kHeaderSize rs.file = (Status.ok, input, f1)) :
    BlobLogRecord.DecodeHeaderFrom cksum input record.clear =
        (Status.headerChecksumMismatch, record.clear) ∧
    Reader.ReadRecord cksum fo record level mode rs =
      (Status.headerChecksumMismatch, record.clear,
        { file := f1, buffer_ := input,
          next_byte_ := rs.next_byte_ + BlobLogRecord.kHeaderSize }) := by
  have hdec : BlobLogRecord.DecodeHeaderFrom cksum input record.clear =
      (Status.headerChecksumMismatch, record.clear) := by
    unfold BlobLogRecord.DecodeHeaderFrom
    rw [if_neg (by omega), if_pos hmm]
  refine ⟨hdec, ?_⟩
  unfold Reader.ReadRecord
  simp only [hread, hdec]
  simp

/-- Claim C3, witness at the concrete mismatching header `badRecHeader`. -/
theorem readRecord_checks_header_checksum_first_witness :
    BlobLogRecord.kHeaderSize ≤ badRecHeader.length ∧
    czero ((badRecHeader.take BlobLogRecord.kHeaderSize).drop 8) ≠
      decFixed 4 (badRecHeader.drop 4) ∧
    posixFile.read BlobLogRecord.kHeaderSize
        ({ file := badRecHeader } : ReaderState (List Nat)).file =
      (Status.ok, badRecHeader, []) ∧
    (BlobLogRecord.DecodeHeaderFrom czero badRecHeader (BlobLogRecord.clear {}) =
        (Status.headerChecksumMismatch, BlobLogRecord.clear {}) ∧
      Reader.ReadRecord czero posixFile {} READ_LEVEL.kReadLevelHdrFooterKeyBlob
          WALRecoveryMode.kAbsoluteConsistency { file := badRecHeader } =
        (Status.headerChecksumMismatch, BlobLogRecord.clear {},
          { file := [], buffer_ := badRecHeader,
            next_byte_ := ({ file := badRecHeader } : ReaderState (List Nat)).next_byte_ +
              BlobLogRecord.kHeaderSize })) :=
  ⟨by decide, by decide, by decide,
    readRecord_checks_header_checksum_first czero posixFile {}
      READ_LEVEL.kReadLevelHdrFooterKeyBlob WALRecoveryMode.kAbsoluteConsistency
      { file := badRecHeader } badRecHeader [] (by decide) (by decide) (by decide)⟩

/-- Claim C4: after N successful `ReadRecord` calls at any mix of depths on
one fresh Reader, `next_byte_` equals the sum over the returned records of
`34 + key_size + blob_size + 8`. -/
theorem readRecord_next_byte_offset_sum {σ : Type} (cksum : List Nat → Nat)
    (fo : FileOps σ) (mode : WALRecoveryMode) (levels : List READ_LEVEL)
    (record : BlobLogRecord) (rs : ReaderState σ) (h0 : rs.next_byte_ = 0)
    (hok : ∀ p ∈ (Reader.runReads cksum fo mode levels record rs).1, p.1 = Status.ok) :
    (Reader.runReads cksum fo mode levels record rs).2.next_byte_ =
      ((Reader.runReads cksum fo mode levels record rs).1.map
        (fun p => 34 + p.2.key_size_ + p.2.blob_size_ + 8)).sum := by
  rw [runReads_offset cksum fo mode levels record rs hok, h0, Nat.zero_add]

/-- Claim C4, witness: a fresh Reader scanning two records of sizes
(1, 1) and (2, 0) at mixed depths. -/
theorem readRecord_next_byte_offset_sum_witness :
    ({ file := c4stream } : ReaderState (List Nat)).next_byte_ = 0 ∧
    (∀ p ∈ (Reader.runReads czero posixFile WALRecoveryMode.kAbsoluteConsistency
        [READ_LEVEL.kReadLevelHdrFooterKeyBlob, READ_LEVEL.kReadLevelHdrFooter] {}
        { file := c4stream }).1, p.1 = Status.ok) ∧
    (Reader.runReads czero posixFile WALRecoveryMode.kAbsoluteConsistency
        [READ_LEVEL.kReadLevelHdrFooterKeyBlob, READ_LEVEL.kReadLevelHdrFooter] {}
        { file := c4stream }).2.next_byte_ =
      ((Reader.runReads czero posixFile WALRecoveryMode.kAbsoluteConsistency
        [READ_LEVEL.kReadLevelHdrFooterKeyBlob, READ_LEVEL.kReadLevelHdrFooter] {}
        { file := c4stream }).1.map
          (fun p => 34 + p.2.key_size_ + p.2.blob_size_ + 8)).sum :=
  ⟨rfl, by decide,
    readRecord_next_byte_offset_sum czero posixFile WALRecoveryMode.kAbsoluteConsistency
      [READ_LEVEL.kReadLevelHdrFooterKeyBlob, READ_LEVEL.kReadLevelHdrFooter] {}
      { file := c4stream } rfl (by decide)⟩

/-- Claim C5 (code bug exhibit): on `c5stream` the key read fails with
`ioError 7`, yet `ReadRecord` at `kReadLevelHdrFooterKey` returns OK: the
source assigns the key-read status and then unconditionally overwrites it
with the footer-read status (and drops the `Skip` status entirely), so the
body I/O failure is lost — the record even reports `key_size_ = 1` with an
empty materialized key. -/
theorem readRecord_drops_body_io_error :
    (Reader.ReadRecord czero oracleFile {} READ_LEVEL.kReadLevelHdrFooterKey
        WALRecoveryMode.kAbsoluteConsistency { file := c5stream }).1 = Status.ok ∧
    (Reader.ReadRecord czero oracleFile {} READ_LEVEL.kReadLevelHdrFooterKey
        WALRecoveryMode.kAbsoluteConsistency { file := c5stream }).2.1.key_size_ = 1 ∧
    (Reader.ReadRecord czero oracleFile {} READ_LEVEL.kReadLevelHdrFooterKey
        WALRecoveryMode.kAbsoluteConsistency { file := c5stream }).2.1.key_ = [] := by
  decide

/-- Claim C6: decoding the same stream position at the three depths yields
the same sequence number and the same scalar header fields; the 8-byte
record footer is decoded into `sn_` at every depth, from the bytes at offset
`34 + key_size + blob_size`. -/
theorem readRecord_depth_equiv (cksum : List Nat → Nat) (mode : WALRecoveryMode)
    (r0 : BlobLogRecord) (b : Nat) (s : List Nat) (rec : BlobLogRecord)
    (hdec : BlobLogRecord.DecodeHeaderFrom cksum (s.take BlobLogRecord.kHeaderSize) r0.clear =
      (Status.ok, rec)) :
    (Reader.ReadRecord cksum posixFile r0 READ_LEVEL.kReadLevelHdrFooter mode
        { file := s, buffer_ := [], next_byte_ := b }).1 = Status.ok ∧
    (Reader.ReadRecord cksum posixFile r0 READ_LEVEL.kReadLevelHdrFooterKey mode
        { file := s, buffer_ := [], next_byte_ := b }).1 = Status.ok ∧
    (Reader.ReadRecord cksum posixFile r0 READ_LEVEL.kReadLevelHdrFooterKeyBlob mode
        { file := s, buffer_ := [], next_byte_ := b }).1 = Status.ok ∧
    scalarFieldsEq
      (Reader.ReadRecord cksum posixFile r0 READ_LEVEL.kReadLevelHdrFooterKeyBlob mode
        { file := s, buffer_ := [], next_byte_ := b }).2.1
      (Reader.ReadRecord cksum posixFile r0 READ_LEVEL.kReadLevelHdrFooter mode
        { file := s, buffer_ := [], next_byte_ := b }).2.1 ∧
    scalarFieldsEq
      (Reader.ReadRecord cksum posixFile r0 READ_LEVEL.kReadLevelHdrFooterKey mode
        { file := s, buffer_ := [], next_byte_ := b }).2.1
      (Reader.ReadRecord cksum posixFile r0 READ_LEVEL.kReadLevelHdrFooter mode
        { file := s, buffer_ := [], next_byte_ := b }).2.1 ∧
    (Reader.ReadRecord cksum posixFile r0 READ_LEVEL.kReadLevelHdrFooter mode
        { file := s, buffer_ := [], next_byte_ := b }).2.1.sn_ =
      DecodeFixed64 ((s.drop (BlobLogRecord.kHeaderSize + rec.key_size_ + rec.blob_size_)).take BlobLogRecord.kFooterSize) := by
  have hgrp : s.drop (BlobLogRecord.kHeaderSize + (rec.key_size_ + rec.blob_size_)) =
      s.drop (BlobLogRecord.kHeaderSize + rec.key_size_ + rec.blob_size_) := by
    congr 1
    omega
  have e1a : (Reader.ReadRecord cksum posixFile r0 READ_LEVEL.kReadLevelHdrFooter mode
      { file := s, buffer_ := [], next_byte_ := b }).1 = Status.ok := by
    unfold Reader.ReadRecord
    simp [posixFile, hdec, List.drop_drop, BlobLogRecord.resizeKeyBuffer, BlobLogRecord.resizeBlobBuffer]
  have e2a : (Reader.ReadRecord cksum posixFile r0 READ_LEVEL.kReadLevelHdrFooterKey mode
      { file := s, buffer_ := [], next_byte_ := b }).1 = Status.ok := by
    unfold Reader.ReadRecord
    simp [posixFile, hdec, List.drop_drop, BlobLogRecord.resizeKeyBuffer, BlobLogRecord.resizeBlobBuffer]
  have e3a : (Reader.ReadRecord cksum posixFile r0 READ_LEVEL.kReadLevelHdrFooterKeyBlob mode
      { file := s, buffer_ := [], next_byte_ := b }).1 = Status.ok := by
    unfold Reader.ReadRecord
    simp [posixFile, hdec, List.drop_drop, BlobLogRecord.resizeKeyBuffer, BlobLogRecord.resizeBlobBuffer]
  have e1b : (Reader.ReadRecord cksum posixFile r0 READ_LEVEL.kReadLevelHdrFooter mode
      { file := s, buffer_ := [], next_byte_ := b }).2.1 =
      { rec with sn_ := DecodeFixed64 ((s.drop (BlobLogRecord.kHeaderSize + (rec.key_size_ + rec.blob_size_))).take BlobLogRecord.kFooterSize) } := by
    unfold Reader.ReadRecord
    simp [posixFile, hdec, List.drop_drop, BlobLogRecord.resizeKeyBuffer, BlobLogRecord.resizeBlobBuffer]
  have e2b : (Reader.ReadRecord cksum posixFile r0 READ_LEVEL.kReadLevelHdrFooterKey mode
      { file := s, buffer_ := [], next_byte_ := b }).2.1 =
      { rec with
        kbs_ := max rec.kbs_ rec.key_size_,
        key_ := (s.drop BlobLogRecord.kHeaderSize).take rec.key_size_,
        sn_ := DecodeFixed64 ((s.drop (BlobLogRecord.kHeaderSize + rec.key_size_ + rec.blob_size_)).take BlobLogRecord.kFooterSize) } := by
    unfold Reader.ReadRecord
    simp [posixFile, hdec, List.drop_drop, BlobLogRecord.resizeKeyBuffer, BlobLogRecord.resizeBlobBuffer]
  have e3b : (Reader.ReadRecord cksum posixFile r0 READ_LEVEL.kReadLevelHdrFooterKeyBlob mode
      { file := s, buffer_ := [], next_byte_ := b }).2.1 =
      { rec with
        kbs_ := max rec.kbs_ rec.key_size_,
        key_ := (s.drop BlobLogRecord.kHeaderSize).take rec.key_size_,
        bbs_ := max rec.bbs_ rec.blob_size_,
        blob_ := ((s.drop BlobLogRecord.kHeaderSize).drop rec.key_size_).take rec.blob_size_,
        sn_ := DecodeFixed64 ((s.drop (BlobLogRecord.kHeaderSize + rec.key_size_ + rec.blob_size_)).take BlobLogRecord.kFooterSize) } := by
    unfold Reader.ReadRecord
    simp [posixFile, hdec, List.drop_drop, BlobLogRecord.resizeKeyBuffer, BlobLogRecord.resizeBlobBuffer]
  refine ⟨e1a, e2a, e3a, ?_, ?_, ?_⟩
  · simp [scalarFieldsEq, e3b, e1b, hgrp]
  · simp [scalarFieldsEq, e2b, e1b, hgrp]
  · simp [e1b, hgrp]

/-- Claim C6, witness at the concrete one-record stream `c1stream`. -/
theorem readRecord_depth_equiv_witness :
    BlobLogRecord.DecodeHeaderFrom czero (c1stream.take BlobLogRecord.kHeaderSize)
        (BlobLogRecord.clear {}) = (Status.ok, c6rec) ∧
    ((Reader.ReadRecord czero posixFile {} READ_LEVEL.kReadLevelHdrFooter
        WALRecoveryMode.kAbsoluteConsistency
        { file := c1stream, buffer_ := [], next_byte_ := 0 }).1 = Status.ok ∧
      (Reader.ReadRecord czero posixFile {} READ_LEVEL.kReadLevelHdrFooterKey
        WALRecoveryMode.kAbsoluteConsistency
        { file := c1stream, buffer_ := [], next_byte_ := 0 }).1 = Status.ok ∧
      (Reader.ReadRecord czero posixFile {} READ_LEVEL.kReadLevelHdrFooterKeyBlob
        WALRecoveryMode.kAbsoluteConsistency
        { file := c1stream, buffer_ := [], next_byte_ := 0 }).1 = Status.ok ∧
      scalarFieldsEq
        (Reader.ReadRecord czero posixFile {} READ_LEVEL.kReadLevelHdrFooterKeyBlob
          WALRecoveryMode.kAbsoluteConsistency
          { file := c1stream, buffer_ := [], next_byte_ := 0 }).2.1
        (Reader.ReadRecord czero posixFile {} READ_LEVEL.kReadLevelHdrFooter
          WALRecoveryMode.kAbsoluteConsistency
          { file := c1stream, buffer_ := [], next_byte_ := 0 }).2.1 ∧
      scalarFieldsEq
        (Reader.ReadRecord czero posixFile {} READ_LEVEL.kReadLevelHdrFooterKey
          WALRecoveryMode.kAbsoluteConsistency
          { file := c1stream, buffer_ := [], next_byte_ := 0 }).2.1
        (Reader.ReadRecord czero posixFile {} READ_LEVEL.kReadLevelHdrFooter
          WALRecoveryMode.kAbsoluteConsistency
          { file := c1stream, buffer_ := [], next_byte_ := 0 }).2.1 ∧
      (Reader.ReadRecord czero posixFile {} READ_LEVEL.kReadLevelHdrFooter
          WALRecoveryMode.kAbsoluteConsistency
          { file := c1stream, buffer_ := [], next_byte_ := 0 }).2.1.sn_ =
        DecodeFixed64 ((c1stream.drop (BlobLogRecord.kHeaderSize + c6rec.key_size_ + c6rec.blob_size_)).take BlobLogRecord.kFooterSize)) :=
  ⟨by decide,
    readRecord_depth_equiv czero WALRecoveryMode.kAbsoluteConsistency {} 0 c1stream c6rec
      (by decide)⟩

set_option maxHeartbeats 1600000 in
/-- Claim C7: for well-formed header and footer values, decoding the
encoding returns success and the original value, including the
absent/present state of the optional TTL and timestamp ranges. -/
theorem header_footer_roundTrip (h : BlobLogHeader) (f : BlobLogFooter)
    (hW : BlobLogHeader.WellFormed h) (fW : BlobLogFooter.WellFormed f) :
    BlobLogHeader.DecodeFrom (BlobLogHeader.EncodeTo h) = (Status.ok, h) ∧
    BlobLogFooter.DecodeFrom (BlobLogFooter.EncodeTo f) = (Status.ok, f) := by
  constructor
  · obtain ⟨m, tg, sg⟩ := h
    obtain ⟨hm, h1, h2, h3, h4⟩ := hW
    have hm2 : m = kMagicNumber := hm
    subst hm2
    rcases tg with _ | ⟨u1, u2⟩ <;> rcases sg with _ | ⟨v1, v2⟩ <;>
      (simp only [Option.getD_some, Option.getD_none] at h1 h2 h3 h4
       simp only [BlobLogHeader.EncodeTo, BlobLogHeader.DecodeFrom,
         BlobLogHeader.kHeaderSize, encFixed, decFixed, kMagicNumber]
       norm_num [Prod.mk.injEq]
       try omega)
  · obtain ⟨mf, bc, tr, sr, snr⟩ := f
    obtain ⟨snr1, snr2⟩ := snr
    obtain ⟨hm, h0, h1, h2, h3, h4, h5, h6⟩ := fW
    have hm2 : mf = kMagicNumberFooter := hm
    subst hm2
    have h0b : bc < 256 ^ 8 := h0
    have h5b : snr1 < 256 ^ 8 := h5
    have h6b : snr2 < 256 ^ 8 := h6
    rcases tr with _ | ⟨u1, u2⟩ <;> rcases sr with _ | ⟨v1, v2⟩ <;>
      (simp only [Option.getD_some, Option.getD_none] at h1 h2 h3 h4
       simp only [BlobLogFooter.EncodeTo, BlobLogFooter.DecodeFrom,
         BlobLogFooter.kFooterSize, encFixed, decFixed, kMagicNumberFooter]
       norm_num [Prod.mk.injEq]
       try omega)

/-- Claim C7, witness at concrete header and footer values with one range
present and one absent each. -/
theorem header_footer_roundTrip_witness :
    BlobLogHeader.WellFormed c7hdr ∧ BlobLogFooter.WellFormed c7ftr ∧
    (BlobLogHeader.DecodeFrom (BlobLogHeader.EncodeTo c7hdr) = (Status.ok, c7hdr) ∧
      BlobLogFooter.DecodeFrom (BlobLogFooter.EncodeTo c7ftr) = (Status.ok, c7ftr)) :=
  ⟨by decide, by decide, header_footer_roundTrip c7hdr c7ftr (by decide) (by decide)⟩

/-- Claim C8: `ReadHeader` on a freshly opened Reader (offset 0) leaves
`next_byte_` unchanged at 0. -/
theorem readHeader_preserves_next_byte {σ : Type} (fo : FileOps σ)
    (header : BlobLogHeader) (rs : ReaderState σ) (h0 : rs.next_byte_ = 0) :
    (Reader.ReadHeader fo header rs).2.2.next_byte_ = 0 := by
  simp only [Reader.ReadHeader]
  split <;> simpa using h0

/-- Claim C8, witness on the empty stream. -/
theorem readHeader_preserves_next_byte_witness :
    ({ file := [] } : ReaderState (List Nat)).next_byte_ = 0 ∧
    (Reader.ReadHeader posixFile {} ({ file := [] } : ReaderState (List Nat))).2.2.next_byte_ = 0 :=
  ⟨rfl, readHeader_preserves_next_byte posixFile {} _ rfl⟩

/-- Claim C9: in each depth branch the fixed-width 64-bit decode into `sn_`
is executed before the footer-read status is inspected: on streams where the
footer read fails with an I/O error and hands back only 3 bytes, `ReadRecord`
still sets `sn_` to the decode of that 3-byte buffer — violating the §4.1
precondition that the decoder receive at least 8 bytes — and only then
returns the error status. -/
theorem readRecord_decodes_sn_before_status :
    ¬ decodePre 8 [1, 2, 3] ∧
    (Reader.ReadRecord czero oracleFile {} READ_LEVEL.kReadLevelHdrFooter
        WALRecoveryMode.kAbsoluteConsistency { file := c9streamA }).1 = Status.ioError 9 ∧
    (Reader.ReadRecord czero oracleFile {} READ_LEVEL.kReadLevelHdrFooter
        WALRecoveryMode.kAbsoluteConsistency { file := c9streamA }).2.1.sn_ =
      DecodeFixed64 [1, 2, 3] ∧
    (Reader.ReadRecord czero oracleFile {} READ_LEVEL.kReadLevelHdrFooterKey
        WALRecoveryMode.kAbsoluteConsistency { file := c9streamB }).1 = Status.ioError 9 ∧
    (Reader.ReadRecord czero oracleFile {} READ_LEVEL.kReadLevelHdrFooterKey
        WALRecoveryMode.kAbsoluteConsistency { file := c9streamB }).2.1.sn_ =
      DecodeFixed64 [1, 2, 3] ∧
    (Reader.ReadRecord czero oracleFile {} READ_LEVEL.kReadLevelHdrFooterKeyBlob
        WALRecoveryMode.kAbsoluteConsistency { file := c9streamC }).1 = Status.ioError 9 ∧
    (Reader.ReadRecord czero oracleFile {} READ_LEVEL.kReadLevelHdrFooterKeyBlob
        WALRecoveryMode.kAbsoluteConsistency { file := c9streamC }).2.1.sn_ =
      DecodeFixed64 [1, 2, 3] ∧
    DecodeFixed64 [1, 2, 3] ≠ 0 := by decide

/-- Claim C10: `ReadRecord` is insensitive to the `wal_recovery_mode`
argument: for every stream model and state, record, and depth, the entire
result (status, record and reader state) is identical under any two policy
values. -/
theorem readRecord_same_for_all_recovery_modes {σ : Type} (cksum : List Nat → Nat)
    (fo : FileOps σ) (record : BlobLogRecord) (level : READ_LEVEL)
    (m1 m2 : WALRecoveryMode) (rs : ReaderState σ) :
    Reader.ReadRecord cksum fo record level m1 rs =
      Reader.ReadRecord cksum fo record level m2 rs := rfl

end BlobDB
